import Mathlib

/-!
Shallow embedding of the kids-server SMS relay (src/index.js).

The server keeps three pieces of mutable state: a backing list `devices`
of device objects, two JS `Map` indices (`deviceByKey`, `deviceByDeviceId`)
whose values are references to the very objects held in the list, and a
`pendingRequests` table keyed by `requestId`.  JS objects are mutated in
place through shared references, so the embedding models the object heap
explicitly: device objects are identified by a `Nat` allocated at creation
(`nextObj`), the backing list and both indices store object ids, and a
heap association list maps object ids to the current record value.

JS `Map` is modelled by an association list with `get`/`set`/`delete`
operations.  The program never observes a `Map`'s iteration order (the
maps are only read with `get`/`has`), so the replace-by-cons
representation used here is functionally faithful.
-/

namespace KidsServer

/-- Association-list lookup, modelling `Map.prototype.get` (and plain
object-field access for the heap). -/
def assocGet {α : Type} {β : Type} [DecidableEq α] (m : List (α × β)) (k : α) : Option β :=
  match m with
  | [] => none
  | p :: rest => if p.1 = k then some p.2 else assocGet rest k

/-- Association-list removal, modelling `Map.prototype.delete`: after the
call no entry with key `k` remains and every other key is unchanged. -/
def assocDelete {α : Type} {β : Type} [DecidableEq α] (m : List (α × β)) (k : α) : List (α × β) :=
  match m with
  | [] => []
  | p :: rest => if p.1 = k then assocDelete rest k else p :: assocDelete rest k

/-- Association-list update, modelling `Map.prototype.set`: after the call,
`get k` yields `v` and every other key is unchanged. -/
def assocSet {α : Type} {β : Type} [DecidableEq α] (m : List (α × β)) (k : α) (v : β) : List (α × β) :=
  (k, v) :: assocDelete m k

/-- Key-membership test, modelling `Map.prototype.has`. -/
def assocHas {α : Type} {β : Type} [DecidableEq α] (m : List (α × β)) (k : α) : Bool :=
  (assocGet m k).isSome

/-- Removal of the first list element satisfying a predicate, modelling
`devices.findIndex(...)` followed by `if (index !== -1) devices.splice(index, 1)`
(src/index.js lines 122-123): when no element matches the list is unchanged. -/
def removeFirst {α : Type} (p : α → Bool) : List α → List α
  | [] => []
  | a :: as => if p a then as else a :: removeFirst p as

/-- One device record (the fields created at `POST /device`, src/index.js
lines 87-93).  `expDate` is the expiry timestamp in milliseconds (`null`
becomes `none`); `socketid` is the live-connection reference. -/
structure Device where
  id : String
  key : String
  deviceid : String
  expDate : Option Int
  socketid : Option String
  deriving DecidableEq, Repr

/-- Totalisation default used where JS dereferences an object that is
guaranteed to exist (a `Map` hit always yields the stored object). -/
def emptyDevice : Device :=
  { id := "", key := "", deviceid := "", expDate := none, socketid := none }

/-- The server's registry state: the backing array `devices` (object ids in
array order), the object heap, the allocation counter for object identities,
the two `Map` indices, and the persistence dirty flag. -/
structure ServerState where
  devices : List Nat
  heap : List (Nat × Device)
  nextObj : Nat
  deviceByKey : List (String × Nat)
  deviceByDeviceId : List (String × Nat)
  cacheDirty : Bool
  deriving DecidableEq, Repr

/-- The state at module load: `devices = []`, empty maps, `cacheDirty = false`
(src/index.js lines 27-34). -/
def initState : ServerState :=
  { devices := [], heap := [], nextObj := 0, deviceByKey := [], deviceByDeviceId := [],
    cacheDirty := false }

/-- Read a device object's current record through the heap. -/
def objRecord (s : ServerState) (o : Nat) : Option Device :=
  assocGet s.heap o

/-- Expiry check `isKeyValid` (src/index.js lines 70-72):
`!device.expDate || Date.now() < new Date(device.expDate).getTime()`. -/
def isKeyValid (now : Int) (d : Device) : Bool :=
  match d.expDate with
  | none => true
  | some t => decide (now < t)

/-- Events the server emits over socket.io, with their target (a socket id /
room) and payload fields. -/
inductive EmitEvent
  | insertSms (target : String) (destNumber : String) (textMessage : String) (requestId : String)
  | forceDisconnect (target : String) (reason : String)
  | connected (target : String) (message : String) (deviceId : String)
  deriving DecidableEq, Repr

/-- Outcome of `POST /device` (src/index.js lines 74-105). -/
inductive CreateResult
  | missingKey
  | duplicateKey
  | created (id : String) (deviceid : String)
  deriving DecidableEq, Repr

/-- Handler of `POST /device` (src/index.js lines 74-105).  The two random
strings `generateId()` / `generateDeviceId()` are passed in as the
parameters `id` and `deviceid`; the fresh object identity is `s.nextObj`.
Missing key (JS falsy, i.e. the empty string) gives 400; a key already in
`deviceByKey` gives 409 with no mutation; otherwise the new record is
pushed on `devices`, inserted in both maps, and `cacheDirty` is set. -/
def createDevice (s : ServerState) (key : String) (expDate : Option Int)
    (id : String) (deviceid : String) : CreateResult × ServerState :=
  if key = "" then (.missingKey, s)
  else if assocHas s.deviceByKey key then (.duplicateKey, s)
  else
    let obj := s.nextObj
    let newDevice : Device :=
      { id := id, key := key, deviceid := deviceid, expDate := expDate, socketid := none }
    (.created id deviceid,
      { devices := s.devices ++ [obj]
        heap := assocSet s.heap obj newDevice
        nextObj := obj + 1
        deviceByKey := assocSet s.deviceByKey key obj
        deviceByDeviceId := assocSet s.deviceByDeviceId deviceid obj
        cacheDirty := true })

/-- Socket disconnect handler (src/index.js lines 255-263): it clears
`socket.deviceObj.socketid` unconditionally (there is no check that the
field still holds this socket's id) and sets `cacheDirty`.  `obj` is the
object identity captured in `socket.deviceObj` at authentication time. -/
def handleDisconnect (s : ServerState) (obj : Nat) : ServerState :=
  match assocGet s.heap obj with
  | some d =>
      { s with heap := assocSet s.heap obj { d with socketid := none }, cacheDirty := true }
  | none => s

/-- Outcome of `DELETE /device/:key` (src/index.js lines 107-129). -/
inductive DeleteResult
  | notFound
  | deleted
  deriving DecidableEq, Repr

/-- Handler of `DELETE /device/:key` (src/index.js lines 107-129).  Unknown
key gives 404 with no mutation.  Otherwise, if the device has a bound
connection, a single `force_disconnect` event is emitted to it and the
socket is disconnected (which synchronously runs the disconnect handler on
the captured object); then the record is spliced out of `devices` (first
index whose record's `key` matches), both map entries are deleted (the
`deviceByDeviceId` entry only under the JS-truthiness guard
`if (device.deviceid)`), and `cacheDirty` is set. -/
def deleteDevice (s : ServerState) (key : String) : DeleteResult × List EmitEvent × ServerState :=
  match assocGet s.deviceByKey key with
  | none => (.notFound, [], s)
  | some obj =>
    let d := (assocGet s.heap obj).getD emptyDevice
    let events := match d.socketid with
      | some sid => [EmitEvent.forceDisconnect sid "Device key was deleted"]
      | none => []
    let s1 := match d.socketid with
      | some _ => handleDisconnect s obj
      | none => s
    let s2 : ServerState :=
      { s1 with
        devices := removeFirst (fun o => decide ((assocGet s1.heap o).map Device.key = some key)) s1.devices
        deviceByKey := assocDelete s1.deviceByKey key
        deviceByDeviceId :=
          if d.deviceid ≠ "" then assocDelete s1.deviceByDeviceId d.deviceid
          else s1.deviceByDeviceId
        cacheDirty := true }
    (.deleted, events, s2)

/-- Outcome of `POST /register` (src/index.js lines 131-151). -/
inductive RegisterResult
  | missingKey
  | invalidKey
  | expired
  | registered (deviceid : String)
  deriving DecidableEq, Repr

/-- Handler of `POST /register` (src/index.js lines 131-151): missing key
gives 400, unknown key 404, expired key 400, otherwise the device's
`deviceid` is returned.  A pure read: no state is mutated. -/
def registerDevice (s : ServerState) (key : String) (now : Int) : RegisterResult :=
  if key = "" then .missingKey
  else match assocGet s.deviceByKey key with
    | none => .invalidKey
    | some obj =>
      let d := (assocGet s.heap obj).getD emptyDevice
      if isKeyValid now d then .registered d.deviceid else .expired

/-- The fixed deadline (milliseconds) of the `/send` pending request
(src/index.js line 180). -/
def SEND_TIMEOUT_MS : Nat := 4500

/-- Insertion into the pending-request table, modelling
`pendingRequests.set(requestId, resolver)`; the table is tracked by the
set of request ids it holds. -/
def pendingAdd (pending : List String) (requestId : String) : List String :=
  requestId :: pending.filter (fun x => decide (x ≠ requestId))

/-- Removal from the pending-request table, modelling
`pendingRequests.delete(requestId)` (a no-op when the id is absent). -/
def pendingRemove (pending : List String) (requestId : String) : List String :=
  pending.filter (fun x => decide (x ≠ requestId))

/-- Outcome of `POST /send` (src/index.js lines 153-206). -/
inductive SendResult
  | missingFields
  | notRegistered
  | notConnected
  | timeout
  | success (status : Bool) (deviceMessage : String)
  deriving DecidableEq, Repr

/-- Handler of `POST /send` (src/index.js lines 153-206).  `reply = some
(st, msg)` means a reply tagged with this request's `requestId` reached the
`sms-response` listener before the 4.5 s deadline; `reply = none` means the
deadline fired first.  Validation failures give 400; an unknown
`deviceId` 404; a device with `socketid = null` 404.  Otherwise the
`requestId` is inserted in the pending table and `insert-sms` is emitted to
the device's socket.  On a reply, the stored resolver runs `clearTimeout`
and resolves the promise — the code never deletes the table entry on this
path, so the final table still contains `requestId`.  On timeout, the
timer callback deletes the entry and rejects, and the `catch` block deletes
it again (a no-op). -/
def sendHandler (s : ServerState) (pending : List String)
    (deviceId : String) (destNumber : String) (textMessage : String) (requestId : String)
    (reply : Option (Bool × String)) : SendResult × List String × List EmitEvent :=
  if deviceId = "" ∨ destNumber = "" ∨ textMessage = "" then (.missingFields, pending, [])
  else match assocGet s.deviceByDeviceId deviceId with
    | none => (.notRegistered, pending, [])
    | some obj =>
      let d := (assocGet s.heap obj).getD emptyDevice
      match d.socketid with
      | none => (.notConnected, pending, [])
      | some sid =>
        let pending1 := pendingAdd pending requestId
        let events := [EmitEvent.insertSms sid destNumber textMessage requestId]
        match reply with
        | some (st, msg) => (.success st msg, pending1, events)
        | none => (.timeout, pendingRemove (pendingRemove pending1 requestId) requestId, events)

/-- The `sms-response` listener (src/index.js lines 237-242): look the
`requestId` up in the pending table; if a resolver is found, invoke it
(the returned flag records the invocation).  In neither case is the table
entry deleted. -/
def smsResponseHandler (pending : List String) (requestId : String) : List String × Bool :=
  if requestId ∈ pending then (pending, true) else (pending, false)

/-- Outcome of the socket.io authentication middleware. -/
inductive AuthResult
  | missingId
  | unknownDevice
  | ok (obj : Nat)
  deriving DecidableEq, Repr

/-- Authentication middleware `io.use` (src/index.js lines 208-223): the
handshake must carry a `deviceId` (JS falsy check) that is present in
`deviceByDeviceId`; on success the device object reference is captured on
the socket (returned here as the object id).  No expiry check is made. -/
def authMiddleware (s : ServerState) (deviceId : String) : AuthResult :=
  if deviceId = "" then .missingId
  else match assocGet s.deviceByDeviceId deviceId with
    | none => .unknownDevice
    | some obj => .ok obj

/-- Connection handler `io.on("connection")` (src/index.js lines 225-235):
sets `socket.deviceObj.socketid = socket.id`, marks the cache dirty, and
emits the `connected` event.  `obj` is the object id captured by the
middleware, `deviceId` the handshake identifier, `socketId` the socket's
id. -/
def handleConnect (s : ServerState) (obj : Nat) (deviceId : String) (socketId : String) :
    ServerState × List EmitEvent :=
  match assocGet s.heap obj with
  | some d =>
      ({ s with heap := assocSet s.heap obj { d with socketid := some socketId },
                cacheDirty := true },
       [EmitEvent.connected socketId "Successfully connected to server" deviceId])
  | none => (s, [])

/-- One run of `saveDevices` (src/index.js lines 57-66) on its success
path: if `cacheDirty` is set, the full current device list is serialised
and written (returned as `some doc`) and the flag is cleared; otherwise
nothing is written. -/
def saveDevicesRun (s : ServerState) : ServerState × Option (List Device) :=
  if s.cacheDirty then
    ({ s with cacheDirty := false }, some (s.devices.filterMap (assocGet s.heap)))
  else (s, none)

/-- The document a flush writes (the serialised `devices` array), or `none`
when the dirty flag is clear and `saveDevices` returns early. -/
def saveDevicesDoc (s : ServerState) : Option (List Device) :=
  (saveDevicesRun s).2

/-- The `devices.forEach(device => { device.socketid = null })` loop of the
SIGINT handler (src/index.js lines 281-283), applied to the heap. -/
def clearSocketids (h : List (Nat × Device)) (objs : List Nat) : List (Nat × Device) :=
  objs.foldl
    (fun h o =>
      match assocGet h o with
      | some d => assocSet h o { d with socketid := none }
      | none => h) h

/-- The SIGINT handler (src/index.js lines 278-290): null out every
device's `socketid`, then run `saveDevices` once.  Note the loop does not
set `cacheDirty`, so when the flag is clear nothing is written. -/
def sigintHandler (s : ServerState) : ServerState × Option (List Device) :=
  saveDevicesRun { s with heap := clearSocketids s.heap s.devices }

/-- The possible outcomes of reading the devices file at startup. -/
inductive ReadOutcome
  | missing
  | ioError
  | parseError
  | ok (l : List Device)
  deriving Repr

/-- Observable outcome of `loadDevices` (src/index.js lines 37-55):
the in-memory device list afterwards, whether the file was created empty
(the `ENOENT` branch writes `"[]"`), whether `console.error` ran (the
non-`ENOENT` catch), and whether the call surfaced a fault to its caller
(threw / rejected). -/
structure LoadOutcome where
  devices : List Device
  fileCreated : Bool
  errorLogged : Bool
  startupFault : Bool
  deriving DecidableEq, Repr

/-- The `loadDevices` function (src/index.js lines 37-55).  On a
successful read-and-parse the list is installed (the index-population
`forEach` is elided here: it does not bear on startup fault behaviour).
`ENOENT` creates the file empty and leaves the store empty.  Every other
read or parse failure lands in the same catch arm, which only logs: the
error is swallowed and `loadDevices` returns normally with the store still
empty, so `startupFault` is `false` in every case. -/
def loadDevices (r : ReadOutcome) : LoadOutcome :=
  match r with
  | .ok l => { devices := l, fileCreated := false, errorLogged := false, startupFault := false }
  | .missing => { devices := [], fileCreated := true, errorLogged := false, startupFault := false }
  | .ioError => { devices := [], fileCreated := false, errorLogged := true, startupFault := false }
  | .parseError => { devices := [], fileCreated := false, errorLogged := true, startupFault := false }

/-- The `startServer` function (src/index.js lines 266-276): it awaits
`loadDevices` and calls `server.listen` unless that await faulted (only
then does the catch run `process.exit(1)`). -/
def startServerListens (r : ReadOutcome) : Bool :=
  !(loadDevices r).startupFault

/-- A registry mutation issued through the control surface: the two
operations that create and remove device records.  The strings that the
code draws from `crypto.randomBytes` are carried as operation data. -/
inductive StoreOp
  | create (key : String) (expDate : Option Int) (id : String) (deviceid : String)
  | delete (key : String)

/-- State transition of one registry operation (the state component of
`createDevice` / `deleteDevice`). -/
def applyOp (s : ServerState) : StoreOp → ServerState
  | .create k e i did => (createDevice s k e i did).2
  | .delete k => (deleteDevice s k).2.2

/-- Run a sequence of registry operations from a given state. -/
def runOps (s : ServerState) : List StoreOp → ServerState
  | [] => s
  | op :: rest => runOps (applyOp s op) rest

/-- Freshness of the randomly generated `deviceid` of a `create` operation
at the state where it executes: `generateDeviceId` returns a nonempty
string, and the spec directs that its randomness be treated as globally
unique (the code performs no uniqueness check on it). -/
def freshOp (s : ServerState) : StoreOp → Bool
  | .create _ _ _ did => decide (did ≠ "") && !(assocHas s.deviceByDeviceId did)
  | .delete _ => true

/-- Every `create` in the trace draws a fresh, nonempty `deviceid`. -/
def freshTrace (s : ServerState) : List StoreOp → Bool
  | [] => true
  | op :: rest => freshOp s op && freshTrace (applyOp s op) rest

/-- Mutual consistency of the backing list, the heap, and the two map
indices: every listed device object resolves to a record that both indices
point back to, and every index entry points at a listed object whose record
carries that index key. -/
structure StoreInv (s : ServerState) : Prop where
  nodup : s.devices.Nodup
  bound : ∀ o ∈ s.devices, o < s.nextObj
  devSound : ∀ o ∈ s.devices, ∃ d, assocGet s.heap o = some d ∧ d.deviceid ≠ "" ∧
    assocGet s.deviceByKey d.key = some o ∧ assocGet s.deviceByDeviceId d.deviceid = some o
  keySound : ∀ k o, assocGet s.deviceByKey k = some o →
    o ∈ s.devices ∧ ∃ d, assocGet s.heap o = some d ∧ d.key = k
  didSound : ∀ k o, assocGet s.deviceByDeviceId k = some o →
    o ∈ s.devices ∧ ∃ d, assocGet s.heap o = some d ∧ d.deviceid = k

/-- Keys are unique across the live set: two listed objects whose records
share a `key` are the same object. -/
def KeysUnique (s : ServerState) : Prop :=
  ∀ o1 ∈ s.devices, ∀ o2 ∈ s.devices, ∀ d1 d2, assocGet s.heap o1 = some d1 →
    assocGet s.heap o2 = some d2 → d1.key = d2.key → o1 = o2

/-- Device identifiers are unique across the live set. -/
def DeviceIdsUnique (s : ServerState) : Prop :=
  ∀ o1 ∈ s.devices, ∀ o2 ∈ s.devices, ∀ d1 d2, assocGet s.heap o1 = some d1 →
    assocGet s.heap o2 = some d2 → d1.deviceid = d2.deviceid → o1 = o2

/-- Concrete state with one registered device (`key "k1"`, id `"i1"`,
deviceid `"dev_a"`, object identity 0). -/
def demoState : ServerState := (createDevice initState "k1" none "i1" "dev_a").2

/-- The demo device after a socket with id `"sock1"` authenticates and
binds. -/
def demoConnected : ServerState := (handleConnect demoState 0 "dev_a" "sock1").1

/-- The demo device after a second socket `"sock2"` binds over the first. -/
def demoRebound : ServerState := (handleConnect demoConnected 0 "dev_a" "sock2").1

/-- Concrete state with one connected device whose key expired at
timestamp 100. -/
def demoExpired : ServerState :=
  (handleConnect (createDevice initState "kE" (some 100) "iE" "dev_e").2 0 "dev_e" "sockE").1

theorem assocGet_delete_self {α β : Type} [DecidableEq α] (m : List (α × β)) (k : α) :
    assocGet (assocDelete m k) k = none := by
  induction m with
  | nil => rfl
  | cons p rest ih =>
    by_cases hpk : p.1 = k
    · simpa [assocDelete, hpk] using ih
    · simpa [assocDelete, hpk, assocGet] using ih

theorem assocGet_delete_ne {α β : Type} [DecidableEq α] (m : List (α × β)) {k k' : α}
    (h : k' ≠ k) : assocGet (assocDelete m k) k' = assocGet m k' := by
  induction m with
  | nil => rfl
  | cons p rest ih =>
    by_cases hpk : p.1 = k
    · have hkk' : ¬k = k' := fun e => h e.symm
      simpa [assocDelete, hpk, assocGet, hkk'] using ih
    · by_cases hpk2 : p.1 = k'
      · simp [assocDelete, hpk, assocGet, hpk2, h]
      · simpa [assocDelete, hpk, assocGet, hpk2] using ih

theorem assocGet_set_self {α β : Type} [DecidableEq α] (m : List (α × β)) (k : α) (v : β) :
    assocGet (assocSet m k v) k = some v := by
  simp [assocSet, assocGet]

theorem assocGet_set_ne {α β : Type} [DecidableEq α] (m : List (α × β)) {k k' : α} (v : β)
    (h : k' ≠ k) : assocGet (assocSet m k v) k' = assocGet m k' := by
  have : ¬k = k' := fun e => h e.symm
  simp [assocSet, assocGet, this, assocGet_delete_ne m h]

theorem assocGet_eq_none_of_not_has {α β : Type} [DecidableEq α] {m : List (α × β)} {k : α}
    (h : assocHas m k = false) : assocGet m k = none := by
  cases hg : assocGet m k with
  | none => rfl
  | some v => rw [assocHas, hg] at h; simp at h

theorem removeFirst_sublist {α : Type} (p : α → Bool) (l : List α) :
    (removeFirst p l).Sublist l := by
  induction l with
  | nil => exact List.Sublist.refl _
  | cons a as ih =>
    by_cases hpa : p a = true
    · rw [removeFirst, if_pos hpa]
      exact List.sublist_cons_self a as
    · rw [removeFirst, if_neg hpa]
      exact List.Sublist.cons₂ a ih

theorem mem_removeFirst_unique {α : Type} {p : α → Bool} {l : List α} {a : α}
    (hnd : l.Nodup) (ha : a ∈ l) (hpa : p a = true)
    (huniq : ∀ x ∈ l, p x = true → x = a) :
    ∀ x, x ∈ removeFirst p l ↔ x ∈ l ∧ x ≠ a := by
  induction l with
  | nil => cases ha
  | cons b t ih =>
    intro x
    by_cases hpb : p b = true
    · have hba : b = a := huniq b (List.mem_cons_self b t) hpb
      subst hba
      have hbt : b ∉ t := (List.nodup_cons.mp hnd).1
      simp only [removeFirst, hpb, if_pos]
      constructor
      · intro hx
        exact ⟨List.mem_cons_of_mem b hx, fun e => hbt (e ▸ hx)⟩
      · rintro ⟨hx, hxa⟩
        rcases List.mem_cons.mp hx with h | h
        · exact absurd h hxa
        · exact h
    · have hba : b ≠ a := fun e => hpb (e ▸ hpa)
      have hat : a ∈ t := by
        rcases List.mem_cons.mp ha with h | h
        · exact absurd h.symm hba
        · exact h
      have ih' := ih (List.nodup_cons.mp hnd).2 hat
        (fun x hx hpx => huniq x (List.mem_cons_of_mem b hx) hpx)
      simp only [removeFirst, hpb, if_neg, Bool.not_eq_true]
      constructor
      · intro hx
        rcases List.mem_cons.mp hx with h | h
        · exact ⟨h ▸ List.mem_cons_self b t, h ▸ hba⟩
        · have := (ih' x).mp h
          exact ⟨List.mem_cons_of_mem b this.1, this.2⟩
      · rintro ⟨hx, hxa⟩
        rcases List.mem_cons.mp hx with h | h
        · exact h ▸ List.mem_cons_self b _
        · exact List.mem_cons_of_mem b ((ih' x).mpr ⟨h, hxa⟩)

theorem handleDisconnect_devices (s : ServerState) (obj : Nat) :
    (handleDisconnect s obj).devices = s.devices := by
  cases h : assocGet s.heap obj <;> simp [handleDisconnect, h]

theorem handleDisconnect_deviceByKey (s : ServerState) (obj : Nat) :
    (handleDisconnect s obj).deviceByKey = s.deviceByKey := by
  cases h : assocGet s.heap obj <;> simp [handleDisconnect, h]

theorem handleDisconnect_deviceByDeviceId (s : ServerState) (obj : Nat) :
    (handleDisconnect s obj).deviceByDeviceId = s.deviceByDeviceId := by
  cases h : assocGet s.heap obj <;> simp [handleDisconnect, h]

theorem handleDisconnect_nextObj (s : ServerState) (obj : Nat) :
    (handleDisconnect s obj).nextObj = s.nextObj := by
  cases h : assocGet s.heap obj <;> simp [handleDisconnect, h]

theorem handleDisconnect_heap_self (s : ServerState) (obj : Nat) (d : Device)
    (hd : assocGet s.heap obj = some d) :
    assocGet (handleDisconnect s obj).heap obj = some { d with socketid := none } := by
  simp [handleDisconnect, hd, assocGet_set_self]

theorem handleDisconnect_heap_ne (s : ServerState) (obj o : Nat) (h : o ≠ obj) :
    assocGet (handleDisconnect s obj).heap o = assocGet s.heap o := by
  cases hd : assocGet s.heap obj with
  | none => simp [handleDisconnect, hd]
  | some d => simp [handleDisconnect, hd, assocGet_set_ne _ _ h]

theorem deleteDevice_eq (s : ServerState) (key : String) (obj : Nat) (d : Device)
    (hobj : assocGet s.deviceByKey key = some obj) (hd : assocGet s.heap obj = some d) :
    deleteDevice s key =
      (DeleteResult.deleted,
       (match d.socketid with
         | some sid => [EmitEvent.forceDisconnect sid "Device key was deleted"]
         | none => []),
       (let s1 := match d.socketid with
          | some _ => handleDisconnect s obj
          | none => s
        { s1 with
          devices := removeFirst
            (fun o => decide ((assocGet s1.heap o).map Device.key = some key)) s1.devices
          deviceByKey := assocDelete s1.deviceByKey key
          deviceByDeviceId :=
            if d.deviceid ≠ "" then assocDelete s1.deviceByDeviceId d.deviceid
            else s1.deviceByDeviceId
          cacheDirty := true })) := by
  simp [deleteDevice, hobj, hd]

/-- C4: the send operation returns NotRegistered (404) when no device has
the given deviceIdentifier, NotConnected (404) when the device exists but
has no bound connection, Timeout (408) when no correctly-tagged reply
arrives within the fixed 4.5-second deadline, and otherwise a success
result whose status and deviceMessage fields come from the device's reply
payload. -/
theorem sendContract (s : ServerState) (pending : List String)
    (deviceId destNumber textMessage requestId : String) (reply : Option (Bool × String))
    (h1 : deviceId ≠ "") (h2 : destNumber ≠ "") (h3 : textMessage ≠ "") :
    SEND_TIMEOUT_MS = 4500 ∧
    (assocGet s.deviceByDeviceId deviceId = none →
      (sendHandler s pending deviceId destNumber textMessage requestId reply).1 =
        SendResult.notRegistered) ∧
    (∀ obj d, assocGet s.deviceByDeviceId deviceId = some obj →
      assocGet s.heap obj = some d →
      (d.socketid = none →
        (sendHandler s pending deviceId destNumber textMessage requestId reply).1 =
          SendResult.notConnected) ∧
      (∀ sid, d.socketid = some sid →
        (reply = none →
          (sendHandler s pending deviceId destNumber textMessage requestId reply).1 =
            SendResult.timeout) ∧
        (∀ st msg, reply = some (st, msg) →
          (sendHandler s pending deviceId destNumber textMessage requestId reply).1 =
            SendResult.success st msg))) := by
  refine ⟨rfl, ?_, ?_⟩
  · intro hnone
    simp [sendHandler, h1, h2, h3, hnone]
  · intro obj d hobj hd
    refine ⟨?_, ?_⟩
    · intro hsock
      simp [sendHandler, h1, h2, h3, hobj, hd, hsock]
    · intro sid hsid
      refine ⟨?_, ?_⟩
      · intro hrep
        simp [sendHandler, h1, h2, h3, hobj, hd, hsid, hrep]
      · intro st msg hrep
        simp [sendHandler, h1, h2, h3, hobj, hd, hsid, hrep]

/-- Witness for sendContract at the demo device: a vanished reply gives
Timeout and a reply (true, "sent") gives the success payload. -/
theorem sendContract_witness :
    ("dev_a" ≠ "" ∧ "+15551234567" ≠ "" ∧ "hi" ≠ "") ∧
    (sendHandler demoConnected [] "dev_a" "+15551234567" "hi" "r1" none).1 =
      SendResult.timeout ∧
    (sendHandler demoConnected [] "dev_a" "+15551234567" "hi" "r2" (some (true, "sent"))).1 =
      SendResult.success true "sent" :=
  ⟨by decide,
   (((sendContract demoConnected [] "dev_a" "+15551234567" "hi" "r1" none
      (by decide) (by decide) (by decide)).2.2 0
      { id := "i1", key := "k1", deviceid := "dev_a", expDate := none, socketid := some "sock1" }
      (by decide) (by decide)).2 "sock1" rfl).1 rfl,
   (((sendContract demoConnected [] "dev_a" "+15551234567" "hi" "r2" (some (true, "sent"))
      (by decide) (by decide) (by decide)).2.2 0
      { id := "i1", key := "k1", deviceid := "dev_a", expDate := none, socketid := some "sock1" }
      (by decide) (by decide)).2 "sock1" rfl).2 true "sent" rfl⟩

/-- C5: create with an already-registered key fails with DuplicateKey
(409) and mutates nothing; otherwise the generated id and deviceIdentifier
are returned, the record is pushed on the list and inserted in both
indices, and the dirty flag is set. -/
theorem createContract (s : ServerState) (key : String) (expDate : Option Int)
    (id deviceid : String) (hkey : key ≠ "") :
    (assocHas s.deviceByKey key = true →
      createDevice s key expDate id deviceid = (CreateResult.duplicateKey, s)) ∧
    (assocHas s.deviceByKey key = false →
      (createDevice s key expDate id deviceid).1 = CreateResult.created id deviceid ∧
      (createDevice s key expDate id deviceid).2.devices = s.devices ++ [s.nextObj] ∧
      assocGet (createDevice s key expDate id deviceid).2.heap s.nextObj =
        some { id := id, key := key, deviceid := deviceid, expDate := expDate, socketid := none } ∧
      assocGet (createDevice s key expDate id deviceid).2.deviceByKey key = some s.nextObj ∧
      assocGet (createDevice s key expDate id deviceid).2.deviceByDeviceId deviceid =
        some s.nextObj ∧
      (createDevice s key expDate id deviceid).2.cacheDirty = true) := by
  constructor
  · intro hhas
    simp [createDevice, hkey, hhas]
  · intro hhas
    simp [createDevice, hkey, hhas, assocGet_set_self]

/-- Witness for createContract: re-creating key "k1" on the demo store is
refused with no mutation, and a fresh key "k2" is inserted. -/
theorem createContract_witness :
    ("k1" ≠ "" ∧ "k2" ≠ "") ∧
    createDevice demoState "k1" none "iX" "dev_x" = (CreateResult.duplicateKey, demoState) ∧
    (createDevice demoState "k2" none "i2" "dev_b").1 = CreateResult.created "i2" "dev_b" :=
  ⟨by decide,
   (createContract demoState "k1" none "iX" "dev_x" (by decide)).1 (by decide),
   ((createContract demoState "k2" none "i2" "dev_b" (by decide)).2 (by decide)).1⟩

/-- C8: an sms-response reply whose requestId is not in the pending table
is dropped: the table is unchanged, no resolver is invoked, and the
handler returns normally. -/
theorem smsResponseUnknownDropped (pending : List String) (requestId : String)
    (h : requestId ∉ pending) :
    smsResponseHandler pending requestId = (pending, false) := by
  simp [smsResponseHandler, h]

/-- Witness for smsResponseUnknownDropped at a concrete table. -/
theorem smsResponseUnknownDropped_witness :
    "req-b" ∉ ["req-a"] ∧ smsResponseHandler ["req-a"] "req-b" = (["req-a"], false) :=
  ⟨by decide, smsResponseUnknownDropped ["req-a"] "req-b" (by decide)⟩

/-- C1 (code bug exhibit): a send to the demo device whose reply arrives
before the deadline resolves with the reply payload, but the pending-table
entry keyed by its requestId is never removed — the final table still
contains "req1", and a duplicate reply with the same requestId finds the
resolver and invokes it again. -/
theorem sendReplyLeavesPendingEntry :
    (sendHandler demoConnected [] "dev_a" "+15551234567" "hi" "req1" (some (true, "sent"))).1 =
      SendResult.success true "sent" ∧
    (sendHandler demoConnected [] "dev_a" "+15551234567" "hi" "req1" (some (true, "sent"))).2.1 =
      ["req1"] ∧
    (smsResponseHandler
      (sendHandler demoConnected [] "dev_a" "+15551234567" "hi" "req1" (some (true, "sent"))).2.1
      "req1").2 = true := by
  decide

/-- C2 counterexample: after a second socket "sock2" binds the demo
device, the first socket's disconnect clears socketid to null instead of
leaving it pointing at the second connection. -/
theorem staleDisconnectErasesNewerBinding :
    authMiddleware demoRebound "dev_a" = AuthResult.ok 0 ∧
    (assocGet demoRebound.heap 0).map Device.socketid = some (some "sock2") ∧
    (assocGet (handleDisconnect demoRebound 0).heap 0).map Device.socketid = some none ∧
    (assocGet (handleDisconnect demoRebound 0).heap 0).map Device.socketid ≠
      some (some "sock2") := by
  decide

/-- C2 amended: the disconnect handler clears the device's socketid
unconditionally (no identity check against this connection's handle) and
marks the cache dirty, so a stale disconnect erases a newer binding. -/
theorem disconnectClearsUnconditionally (s : ServerState) (obj : Nat) (d : Device)
    (h : assocGet s.heap obj = some d) :
    assocGet (handleDisconnect s obj).heap obj = some { d with socketid := none } ∧
    (handleDisconnect s obj).cacheDirty = true := by
  simp [handleDisconnect, h, assocGet_set_self]

/-- Witness for disconnectClearsUnconditionally at the demo device. -/
theorem disconnectClearsUnconditionally_witness :
    assocGet demoConnected.heap 0 =
      some { id := "i1", key := "k1", deviceid := "dev_a", expDate := none,
             socketid := some "sock1" } ∧
    (assocGet (handleDisconnect demoConnected 0).heap 0 =
      some { id := "i1", key := "k1", deviceid := "dev_a", expDate := none, socketid := none } ∧
     (handleDisconnect demoConnected 0).cacheDirty = true) :=
  ⟨by decide,
   disconnectClearsUnconditionally demoConnected 0
     { id := "i1", key := "k1", deviceid := "dev_a", expDate := none, socketid := some "sock1" }
     (by decide)⟩

/-- C3 counterexample: with the demo device connected and the cache dirty,
the periodic flush writes the device record with its live socketid
"sock1", so a record with a non-null connection reference reaches durable
storage. -/
theorem periodicFlushPersistsLiveSocketid :
    demoConnected.cacheDirty = true ∧
    saveDevicesDoc demoConnected =
      some [{ id := "i1", key := "k1", deviceid := "dev_a", expDate := none,
              socketid := some "sock1" }] ∧
    ({ id := "i1", key := "k1", deviceid := "dev_a", expDate := none,
       socketid := some "sock1" } : Device).socketid ≠ none := by
  decide

/-- C7 counterexample: a read failure other than a missing file is only
logged; loadDevices returns normally with an empty store and startServer
goes on to listen, so the failure is not surfaced as a startup fault. -/
theorem loadReadErrorSwallowed :
    (loadDevices ReadOutcome.ioError).startupFault = false ∧
    (loadDevices ReadOutcome.ioError).errorLogged = true ∧
    (loadDevices ReadOutcome.ioError).devices = [] ∧
    startServerListens ReadOutcome.ioError = true := by
  decide

/-- C7 amended: a missing devices file yields an empty store and the file
is created empty; any other read or parse failure is logged to the console
and the process continues with an empty in-memory store — the server
starts in every case, never treating the failure as a startup fault. -/
theorem loadOutcomeByCase :
    (∀ r : ReadOutcome, startServerListens r = true) ∧
    (loadDevices ReadOutcome.missing).devices = [] ∧
    (loadDevices ReadOutcome.missing).fileCreated = true ∧
    (loadDevices ReadOutcome.missing).startupFault = false ∧
    (loadDevices ReadOutcome.ioError).devices = [] ∧
    (loadDevices ReadOutcome.ioError).errorLogged = true ∧
    (loadDevices ReadOutcome.ioError).startupFault = false ∧
    (loadDevices ReadOutcome.parseError).devices = [] ∧
    (loadDevices ReadOutcome.parseError).errorLogged = true ∧
    (loadDevices ReadOutcome.parseError).startupFault = false := by
  constructor
  · intro r
    cases r <;> rfl
  · decide

/-- C6: deleting an unknown key fails with NotFound (404) and mutates
nothing; deleting a known key removes the record from the list and both
indices, sets the dirty flag, and, when the device has a bound connection,
emits exactly one force_disconnect push carrying the deletion reason to
that connection before the record is removed.  The uniqueness-style side
hypotheses hold in every state the program can reach (they follow from the
store-consistency invariant). -/
theorem deleteContract (s : ServerState) (key : String) :
    (assocGet s.deviceByKey key = none →
      deleteDevice s key = (DeleteResult.notFound, [], s)) ∧
    (∀ obj d, assocGet s.deviceByKey key = some obj → assocGet s.heap obj = some d →
      d.key = key →
      s.devices.Nodup →
      (∀ o ∈ s.devices, (assocGet s.heap o).map Device.key = some key → o = obj) →
      obj ∈ s.devices →
      (deleteDevice s key).1 = DeleteResult.deleted ∧
      (deleteDevice s key).2.1 =
        (match d.socketid with
          | some sid => [EmitEvent.forceDisconnect sid "Device key was deleted"]
          | none => []) ∧
      obj ∉ (deleteDevice s key).2.2.devices ∧
      (∀ o ∈ s.devices, o ≠ obj → o ∈ (deleteDevice s key).2.2.devices) ∧
      assocGet (deleteDevice s key).2.2.deviceByKey key = none ∧
      (d.deviceid ≠ "" → assocGet (deleteDevice s key).2.2.deviceByDeviceId d.deviceid = none) ∧
      (deleteDevice s key).2.2.cacheDirty = true) := by
  constructor
  · intro h
    simp [deleteDevice, h]
  · intro obj d hobj hd hdkey hnd huniq hmem
    rw [deleteDevice_eq s key obj d hobj hd]
    cases hsock : d.socketid with
    | some sid =>
      simp only [hsock]
      have hheap_obj : assocGet (handleDisconnect s obj).heap obj =
          some { d with socketid := none } := handleDisconnect_heap_self s obj d hd
      have hdevs : (handleDisconnect s obj).devices = s.devices :=
        handleDisconnect_devices s obj
      have hp_obj : (fun o =>
          decide ((assocGet (handleDisconnect s obj).heap o).map Device.key = some key)) obj
            = true := by
        simp [hheap_obj, hdkey]
      have huniq' : ∀ x ∈ s.devices,
          (fun o =>
            decide ((assocGet (handleDisconnect s obj).heap o).map Device.key = some key)) x
              = true → x = obj := by
        intro x hx hpx
        by_cases hxo : x = obj
        · exact hxo
        · simp only [decide_eq_true_eq] at hpx
          rw [handleDisconnect_heap_ne s obj x hxo] at hpx
          exact huniq x hx hpx
      have hmemiff := mem_removeFirst_unique (l := s.devices) hnd hmem hp_obj huniq'
      refine ⟨trivial, trivial, ?_, ?_, ?_, ?_, trivial⟩
      · intro hcon
        rw [hdevs] at hcon
        exact ((hmemiff obj).mp hcon).2 rfl
      · intro o ho hne
        show o ∈ removeFirst _ (handleDisconnect s obj).devices
        rw [hdevs]
        exact (hmemiff o).mpr ⟨ho, hne⟩
      · exact assocGet_delete_self _ key
      · intro hdid
        simp only [if_pos hdid]
        exact assocGet_delete_self _ d.deviceid
    | none =>
      simp only [hsock]
      have hp_obj : (fun o =>
          decide ((assocGet s.heap o).map Device.key = some key)) obj = true := by
        simp [hd, hdkey]
      have huniq' : ∀ x ∈ s.devices,
          (fun o => decide ((assocGet s.heap o).map Device.key = some key)) x = true →
            x = obj := by
        intro x hx hpx
        simp only [decide_eq_true_eq] at hpx
        exact huniq x hx hpx
      have hmemiff := mem_removeFirst_unique (l := s.devices) hnd hmem hp_obj huniq'
      refine ⟨trivial, trivial, ?_, ?_, ?_, ?_, trivial⟩
      · intro hcon
        exact ((hmemiff obj).mp hcon).2 rfl
      · intro o ho hne
        exact (hmemiff o).mpr ⟨ho, hne⟩
      · exact assocGet_delete_self _ key
      · intro hdid
        simp only [if_pos hdid]
        exact assocGet_delete_self _ d.deviceid

/-- Witness for deleteContract: deleting "k1" on the demo store with its
bound connection emits the single force_disconnect and removes the
record. -/
theorem deleteContract_witness :
    (assocGet demoConnected.deviceByKey "k1" = some 0 ∧
     assocGet demoConnected.heap 0 =
       some { id := "i1", key := "k1", deviceid := "dev_a", expDate := none,
              socketid := some "sock1" }) ∧
    (deleteDevice demoConnected "k1").1 = DeleteResult.deleted ∧
    (deleteDevice demoConnected "k1").2.1 =
      [EmitEvent.forceDisconnect "sock1" "Device key was deleted"] ∧
    0 ∉ (deleteDevice demoConnected "k1").2.2.devices ∧
    assocGet (deleteDevice demoConnected "k1").2.2.deviceByKey "k1" = none ∧
    assocGet (deleteDevice demoConnected "k1").2.2.deviceByDeviceId "dev_a" = none := by
  have h := (deleteContract demoConnected "k1").2 0
    { id := "i1", key := "k1", deviceid := "dev_a", expDate := none, socketid := some "sock1" }
    (by decide) (by decide) (by decide) (by decide) (by decide) (by decide)
  exact ⟨⟨by decide, by decide⟩, h.1, h.2.1, h.2.2.1, h.2.2.2.2.1,
    h.2.2.2.2.2.1 (by decide)⟩

/-- C10: key expiry is enforced only by the register operation.  For a
device whose expiry timestamp lies in the past (isKeyValid is false), the
socket authentication middleware still admits its deviceIdentifier, the
connection handler still binds the socket and emits the connected event,
and a send to that deviceIdentifier proceeds normally (here: succeeds with
the reply payload); only register answers Expired (400). -/
theorem expiredKeyOnlyBlocksRegister (s : ServerState) (pending : List String)
    (deviceId destNumber textMessage requestId sid sid2 msg : String) (st : Bool)
    (now t : Int) (obj : Nat) (d : Device)
    (hdid : assocGet s.deviceByDeviceId deviceId = some obj)
    (hheap : assocGet s.heap obj = some d)
    (hbk : assocGet s.deviceByKey d.key = some obj)
    (hexp : d.expDate = some t) (hpast : t ≤ now)
    (hk : d.key ≠ "") (hs : d.socketid = some sid)
    (h1 : deviceId ≠ "") (h2 : destNumber ≠ "") (h3 : textMessage ≠ "") :
    isKeyValid now d = false ∧
    authMiddleware s deviceId = AuthResult.ok obj ∧
    (handleConnect s obj deviceId sid2).2 =
      [EmitEvent.connected sid2 "Successfully connected to server" deviceId] ∧
    assocGet (handleConnect s obj deviceId sid2).1.heap obj =
      some { d with socketid := some sid2 } ∧
    (sendHandler s pending deviceId destNumber textMessage requestId (some (st, msg))).1 =
      SendResult.success st msg ∧
    registerDevice s d.key now = RegisterResult.expired := by
  have hnlt : ¬now < t := not_lt.mpr hpast
  refine ⟨?_, ?_, ?_, ?_, ?_, ?_⟩
  · simp [isKeyValid, hexp, hnlt]
  · simp [authMiddleware, h1, hdid]
  · simp [handleConnect, hheap]
  · simp [handleConnect, hheap, assocGet_set_self]
  · simp [sendHandler, h1, h2, h3, hdid, hheap, hs]
  · simp [registerDevice, hk, hbk, hheap, isKeyValid, hexp, hnlt]

/-- Witness for expiredKeyOnlyBlocksRegister: the demo device whose key
expired at time 100, evaluated at now = 200. -/
theorem expiredKeyOnlyBlocksRegister_witness :
    (assocGet demoExpired.deviceByDeviceId "dev_e" = some 0 ∧
     assocGet demoExpired.heap 0 =
       some { id := "iE", key := "kE", deviceid := "dev_e", expDate := some 100,
              socketid := some "sockE" } ∧
     assocGet demoExpired.deviceByKey "kE" = some 0 ∧
     (100 : Int) ≤ 200) ∧
    (isKeyValid 200 ({ id := "iE", key := "kE", deviceid := "dev_e", expDate := some 100,
                       socketid := some "sockE" } : Device) = false ∧
     authMiddleware demoExpired "dev_e" = AuthResult.ok 0 ∧
     (handleConnect demoExpired 0 "dev_e" "sockF").2 =
       [EmitEvent.connected "sockF" "Successfully connected to server" "dev_e"] ∧
     assocGet (handleConnect demoExpired 0 "dev_e" "sockF").1.heap 0 =
       some { id := "iE", key := "kE", deviceid := "dev_e", expDate := some 100,
              socketid := some "sockF" } ∧
     (sendHandler demoExpired [] "dev_e" "+15551234567" "hi" "rE" (some (true, "ok"))).1 =
       SendResult.success true "ok" ∧
     registerDevice demoExpired "kE" 200 = RegisterResult.expired) :=
  ⟨by refine ⟨by decide, by decide, by decide, by decide⟩,
   expiredKeyOnlyBlocksRegister demoExpired [] "dev_e" "+15551234567" "hi" "rE" "sockE" "sockF"
     "ok" true 200 100 0
     { id := "iE", key := "kE", deviceid := "dev_e", expDate := some 100,
       socketid := some "sockE" }
     (by decide) (by decide) (by decide) (by decide) (by decide) (by decide) (by decide)
     (by decide) (by decide) (by decide)⟩

theorem assocGet_clearSocketids_of_not_mem (h : List (Nat × Device)) (objs : List Nat)
    (o : Nat) (ho : o ∉ objs) : assocGet (clearSocketids h objs) o = assocGet h o := by
  induction objs generalizing h with
  | nil => rfl
  | cons a t ih =>
    have hot : o ∉ t := fun hx => ho (List.mem_cons_of_mem a hx)
    have hoa : o ≠ a := fun e => ho (e ▸ List.mem_cons_self a t)
    simp only [clearSocketids, List.foldl_cons]
    cases hga : assocGet h a with
    | none => exact ih h hot
    | some d0 => exact (ih _ hot).trans (assocGet_set_ne _ _ hoa)

theorem socketid_clearSocketids_of_mem (h : List (Nat × Device)) (objs : List Nat)
    (o : Nat) (d : Device) (ho : o ∈ objs)
    (hget : assocGet (clearSocketids h objs) o = some d) : d.socketid = none := by
  induction objs generalizing h with
  | nil => cases ho
  | cons a t ih =>
    simp only [clearSocketids, List.foldl_cons] at hget
    by_cases hot : o ∈ t
    · exact ih _ hot hget
    · have hoa : o = a := by
        rcases List.mem_cons.mp ho with h' | h'
        · exact h'
        · exact absurd h' hot
      subst hoa
      cases hga : assocGet h o with
      | none =>
        rw [hga] at hget
        have hget1 : assocGet (clearSocketids h t) o = some d := hget
        rw [assocGet_clearSocketids_of_not_mem h t o hot, hga] at hget1
        exact Option.noConfusion hget1
      | some d0 =>
        rw [hga] at hget
        have hget1 :
            assocGet (clearSocketids (assocSet h o { d0 with socketid := none }) t) o =
              some d := hget
        rw [assocGet_clearSocketids_of_not_mem _ t o hot, assocGet_set_self] at hget1
        have hd := Option.some.inj hget1
        rw [← hd]

theorem createDevice_eq (s : ServerState) (key : String) (expDate : Option Int)
    (id did : String) (hk : ¬key = "") (hhas : ¬assocHas s.deviceByKey key = true) :
    createDevice s key expDate id did =
      (CreateResult.created id did,
       { devices := s.devices ++ [s.nextObj]
         heap := assocSet s.heap s.nextObj
           { id := id, key := key, deviceid := did, expDate := expDate, socketid := none }
         nextObj := s.nextObj + 1
         deviceByKey := assocSet s.deviceByKey key s.nextObj
         deviceByDeviceId := assocSet s.deviceByDeviceId did s.nextObj
         cacheDirty := true }) := by
  simp [createDevice, hk, hhas]

theorem storeInv_init : StoreInv initState := by
  refine ⟨List.nodup_nil, ?_, ?_, ?_, ?_⟩
  · intro o ho
    exact absurd ho (List.not_mem_nil o)
  · intro o ho
    exact absurd ho (List.not_mem_nil o)
  · intro k o h
    exact Option.noConfusion h
  · intro k o h
    exact Option.noConfusion h

theorem createDevice_preserves (s : ServerState) (key : String) (expDate : Option Int)
    (id did : String) (inv : StoreInv s) (hdid : did ≠ "")
    (hfresh : assocHas s.deviceByDeviceId did = false) :
    StoreInv (createDevice s key expDate id did).2 := by
  by_cases hk : key = ""
  · simpa [createDevice, hk] using inv
  · by_cases hhas : assocHas s.deviceByKey key = true
    · simpa [createDevice, hk, hhas] using inv
    · have hkeynone : assocGet s.deviceByKey key = none :=
        assocGet_eq_none_of_not_has (Bool.not_eq_true _ ▸ hhas)
      have hdidnone : assocGet s.deviceByDeviceId did = none :=
        assocGet_eq_none_of_not_has hfresh
      have hnewmem : s.nextObj ∉ s.devices := fun h => lt_irrefl _ (inv.bound _ h)
      rw [createDevice_eq s key expDate id did hk hhas]
      refine ⟨?_, ?_, ?_, ?_, ?_⟩
      · exact List.Nodup.append inv.nodup (List.nodup_singleton _)
          (fun a ha hb => hnewmem ((List.mem_singleton.mp hb) ▸ ha))
      · intro o ho
        rcases List.mem_append.mp ho with h | h
        · exact Nat.lt_succ_of_lt (inv.bound o h)
        · rw [List.mem_singleton.mp h]
          exact Nat.lt_succ_self _
      · intro o ho
        rcases List.mem_append.mp ho with h | h
        · obtain ⟨d, hd, hdne, hbk, hbd⟩ := inv.devSound o h
          have hne : o ≠ s.nextObj := Nat.ne_of_lt (inv.bound o h)
          have hkne : d.key ≠ key := by
            intro e
            rw [e, hkeynone] at hbk
            exact Option.noConfusion hbk
          have hdne2 : d.deviceid ≠ did := by
            intro e
            rw [e, hdidnone] at hbd
            exact Option.noConfusion hbd
          refine ⟨d, ?_, hdne, ?_, ?_⟩
          · rw [assocGet_set_ne _ _ hne]
            exact hd
          · rw [assocGet_set_ne _ _ hkne]
            exact hbk
          · rw [assocGet_set_ne _ _ hdne2]
            exact hbd
        · rw [List.mem_singleton.mp h]
          exact ⟨_, assocGet_set_self _ _ _, hdid, assocGet_set_self _ _ _,
            assocGet_set_self _ _ _⟩
      · intro k o hko
        by_cases hkk : k = key
        · subst hkk
          rw [assocGet_set_self] at hko
          rw [← Option.some_inj.mp hko]
          refine ⟨List.mem_append_right _ (List.mem_singleton.mpr rfl), ?_⟩
          exact ⟨_, assocGet_set_self _ _ _, rfl⟩
        · rw [assocGet_set_ne _ _ hkk] at hko
          obtain ⟨hmem, d, hd, hdk⟩ := inv.keySound k o hko
          have hne : o ≠ s.nextObj := Nat.ne_of_lt (inv.bound o hmem)
          refine ⟨List.mem_append_left _ hmem, d, ?_, hdk⟩
          rw [assocGet_set_ne _ _ hne]
          exact hd
      · intro k o hko
        by_cases hkk : k = did
        · subst hkk
          rw [assocGet_set_self] at hko
          rw [← Option.some_inj.mp hko]
          refine ⟨List.mem_append_right _ (List.mem_singleton.mpr rfl), ?_⟩
          exact ⟨_, assocGet_set_self _ _ _, rfl⟩
        · rw [assocGet_set_ne _ _ hkk] at hko
          obtain ⟨hmem, d, hd, hdk⟩ := inv.didSound k o hko
          have hne : o ≠ s.nextObj := Nat.ne_of_lt (inv.bound o hmem)
          refine ⟨List.mem_append_left _ hmem, d, ?_, hdk⟩
          rw [assocGet_set_ne _ _ hne]
          exact hd

theorem delete_core_preserves (s s1 : ServerState) (key : String) (obj : Nat) (d : Device)
    (inv : StoreInv s)
    (hobj : assocGet s.deviceByKey key = some obj)
    (hd : assocGet s.heap obj = some d) (hdk : d.key = key) (hdne : d.deviceid ≠ "")
    (hbd : assocGet s.deviceByDeviceId d.deviceid = some obj)
    (hmem : obj ∈ s.devices)
    (hdev : s1.devices = s.devices)
    (hbkm : s1.deviceByKey = s.deviceByKey)
    (hbdm : s1.deviceByDeviceId = s.deviceByDeviceId)
    (hno : s1.nextObj = s.nextObj)
    (hheap_obj : ∃ d1, assocGet s1.heap obj = some d1 ∧ d1.key = d.key)
    (hheap_ne : ∀ o, o ≠ obj → assocGet s1.heap o = assocGet s.heap o) :
    StoreInv
      { s1 with
        devices := removeFirst
          (fun o => decide ((assocGet s1.heap o).map Device.key = some key)) s1.devices
        deviceByKey := assocDelete s1.deviceByKey key
        deviceByDeviceId :=
          if d.deviceid ≠ "" then assocDelete s1.deviceByDeviceId d.deviceid
          else s1.deviceByDeviceId
        cacheDirty := true } := by
  obtain ⟨d1, hd1, hd1k⟩ := hheap_obj
  have hp_obj : (fun o =>
      decide ((assocGet s1.heap o).map Device.key = some key)) obj = true := by
    simp [hd1, hd1k, hdk]
  have huniq : ∀ x ∈ s.devices,
      (fun o => decide ((assocGet s1.heap o).map Device.key = some key)) x = true →
        x = obj := by
    intro x hx hpx
    by_cases hxo : x = obj
    · exact hxo
    · simp only [decide_eq_true_eq] at hpx
      rw [hheap_ne x hxo] at hpx
      obtain ⟨dx, hdx, hdxk⟩ := Option.map_eq_some'.mp hpx
      obtain ⟨ex, hex, _, hbkx, _⟩ := inv.devSound x hx
      have hexd : ex = dx := Option.some_inj.mp (hex.symm.trans hdx)
      rw [hexd, hdxk, hobj] at hbkx
      exact (Option.some_inj.mp hbkx).symm
  have hmemiff := mem_removeFirst_unique (l := s.devices) inv.nodup hmem hp_obj huniq
  rw [if_pos hdne, hdev, hbkm, hbdm]
  refine ⟨?_, ?_, ?_, ?_, ?_⟩
  · exact List.Nodup.sublist (removeFirst_sublist _ _) inv.nodup
  · intro o ho
    rw [hno]
    exact inv.bound o ((hmemiff o).mp ho).1
  · intro o ho
    obtain ⟨hos, hone⟩ := (hmemiff o).mp ho
    obtain ⟨dx, hdx, hdxne, hbkx, hbdx⟩ := inv.devSound o hos
    have hkne : dx.key ≠ key := by
      intro e
      rw [e, hobj] at hbkx
      exact hone (Option.some_inj.mp hbkx).symm
    have hdne2 : dx.deviceid ≠ d.deviceid := by
      intro e
      rw [e, hbd] at hbdx
      exact hone (Option.some_inj.mp hbdx).symm
    refine ⟨dx, ?_, hdxne, ?_, ?_⟩
    · rw [hheap_ne o hone]
      exact hdx
    · rw [assocGet_delete_ne _ hkne]
      exact hbkx
    · rw [assocGet_delete_ne _ hdne2]
      exact hbdx
  · intro k o hko
    have hkk : k ≠ key := by
      intro e
      rw [e, assocGet_delete_self] at hko
      exact Option.noConfusion hko
    rw [assocGet_delete_ne _ hkk] at hko
    obtain ⟨hom, dx, hdx, hdkx⟩ := inv.keySound k o hko
    have hone : o ≠ obj := by
      intro e
      rw [e, hd] at hdx
      rw [← Option.some_inj.mp hdx, hdk] at hdkx
      exact hkk hdkx.symm
    refine ⟨(hmemiff o).mpr ⟨hom, hone⟩, dx, ?_, hdkx⟩
    rw [hheap_ne o hone]
    exact hdx
  · intro k o hko
    have hkk : k ≠ d.deviceid := by
      intro e
      rw [e, assocGet_delete_self] at hko
      exact Option.noConfusion hko
    rw [assocGet_delete_ne _ hkk] at hko
    obtain ⟨hom, dx, hdx, hdkx⟩ := inv.didSound k o hko
    have hone : o ≠ obj := by
      intro e
      rw [e, hd] at hdx
      rw [← Option.some_inj.mp hdx] at hdkx
      exact hkk hdkx.symm
    refine ⟨(hmemiff o).mpr ⟨hom, hone⟩, dx, ?_, hdkx⟩
    rw [hheap_ne o hone]
    exact hdx

theorem deleteDevice_preserves (s : ServerState) (key : String) (inv : StoreInv s) :
    StoreInv (deleteDevice s key).2.2 := by
  cases hobj : assocGet s.deviceByKey key with
  | none => simpa [deleteDevice, hobj] using inv
  | some obj =>
    obtain ⟨hmem, d, hd, hdk⟩ := inv.keySound key obj hobj
    obtain ⟨d2, hd2, hdne, hbk2, hbd2⟩ := inv.devSound obj hmem
    have hdd : d2 = d := Option.some_inj.mp (hd2.symm.trans hd)
    subst hdd
    rw [deleteDevice_eq s key obj d2 hobj hd]
    cases hsock : d2.socketid with
    | some sid =>
      simp only [hsock]
      exact delete_core_preserves s (handleDisconnect s obj) key obj d2 inv hobj hd hdk
        hdne hbd2 hmem (handleDisconnect_devices s obj) (handleDisconnect_deviceByKey s obj)
        (handleDisconnect_deviceByDeviceId s obj) (handleDisconnect_nextObj s obj)
        ⟨{ d2 with socketid := none }, handleDisconnect_heap_self s obj d2 hd, rfl⟩
        (fun o ho => handleDisconnect_heap_ne s obj o ho)
    | none =>
      simp only [hsock]
      exact delete_core_preserves s s key obj d2 inv hobj hd hdk hdne hbd2 hmem rfl rfl rfl
        rfl ⟨d2, hd, rfl⟩ (fun o _ => rfl)

theorem keysUnique_of_inv (s : ServerState) (inv : StoreInv s) : KeysUnique s := by
  intro o1 h1 o2 h2 d1 d2 hd1 hd2 hk
  obtain ⟨e1, he1, _, hbk1, _⟩ := inv.devSound o1 h1
  obtain ⟨e2, he2, _, hbk2, _⟩ := inv.devSound o2 h2
  rw [Option.some_inj.mp (he1.symm.trans hd1)] at hbk1
  rw [Option.some_inj.mp (he2.symm.trans hd2)] at hbk2
  rw [hk] at hbk1
  exact Option.some_inj.mp (hbk1.symm.trans hbk2)

theorem deviceIdsUnique_of_inv (s : ServerState) (inv : StoreInv s) : DeviceIdsUnique s := by
  intro o1 h1 o2 h2 d1 d2 hd1 hd2 hk
  obtain ⟨e1, he1, _, _, hbd1⟩ := inv.devSound o1 h1
  obtain ⟨e2, he2, _, _, hbd2⟩ := inv.devSound o2 h2
  rw [Option.some_inj.mp (he1.symm.trans hd1)] at hbd1
  rw [Option.some_inj.mp (he2.symm.trans hd2)] at hbd2
  rw [hk] at hbd1
  exact Option.some_inj.mp (hbd1.symm.trans hbd2)

theorem freshTrace_inv (ops : List StoreOp) (s : ServerState) (inv : StoreInv s)
    (hf : freshTrace s ops = true) : StoreInv (runOps s ops) := by
  induction ops generalizing s with
  | nil => exact inv
  | cons op rest ih =>
    rw [freshTrace, Bool.and_eq_true] at hf
    obtain ⟨h1, h2⟩ := hf
    refine ih (applyOp s op) ?_ h2
    cases op with
    | create k e i did =>
      rw [freshOp, Bool.and_eq_true, decide_eq_true_eq, Bool.not_eq_true'] at h1
      exact createDevice_preserves s k e i did inv h1.1 h1.2
    | delete k => exact deleteDevice_preserves s k inv

/-- C9: after any sequence of create and delete operations starting from
the empty store (with each create drawing a fresh deviceid, as the spec
directs the randomness to be treated), the backing list, the by-key index
and the by-deviceid index stay mutually consistent — a record is in the
list exactly when both indices point back at it under its key and
deviceid, and the indices hold no other entries — and keys and
deviceIdentifiers are each unique across the live set. -/
theorem storeConsistency (ops : List StoreOp) (h : freshTrace initState ops = true) :
    StoreInv (runOps initState ops) ∧ KeysUnique (runOps initState ops) ∧
      DeviceIdsUnique (runOps initState ops) :=
  have inv := freshTrace_inv ops initState storeInv_init h
  ⟨inv, keysUnique_of_inv _ inv, deviceIdsUnique_of_inv _ inv⟩

/-- Witness for storeConsistency on a concrete trace with two creations,
one deletion and a re-creation of the deleted key. -/
theorem storeConsistency_witness :
    freshTrace initState
      [StoreOp.create "k1" none "i1" "dev_a", StoreOp.create "k2" (some 5) "i2" "dev_b",
       StoreOp.delete "k1", StoreOp.create "k1" none "i3" "dev_c"] = true ∧
    (StoreInv (runOps initState
        [StoreOp.create "k1" none "i1" "dev_a", StoreOp.create "k2" (some 5) "i2" "dev_b",
         StoreOp.delete "k1", StoreOp.create "k1" none "i3" "dev_c"]) ∧
     KeysUnique (runOps initState
        [StoreOp.create "k1" none "i1" "dev_a", StoreOp.create "k2" (some 5) "i2" "dev_b",
         StoreOp.delete "k1", StoreOp.create "k1" none "i3" "dev_c"]) ∧
     DeviceIdsUnique (runOps initState
        [StoreOp.create "k1" none "i1" "dev_a", StoreOp.create "k2" (some 5) "i2" "dev_b",
         StoreOp.delete "k1", StoreOp.create "k1" none "i3" "dev_c"])) :=
  ⟨by decide,
   storeConsistency
     [StoreOp.create "k1" none "i1" "dev_a", StoreOp.create "k2" (some 5) "i2" "dev_b",
      StoreOp.delete "k1", StoreOp.create "k1" none "i3" "dev_c"] (by decide)⟩

/-- C3 amended: every device record written by the shutdown (SIGINT)
flush has a null socketid — the handler nulls every listed device's
socketid before its final saveDevices call.  The periodic flush, by
contrast, writes the in-memory records as-is and can persist a live
connection reference. -/
theorem shutdownFlushHasNullSocketids (s : ServerState) (doc : List Device)
    (h : (sigintHandler s).2 = some doc) : ∀ r ∈ doc, r.socketid = none := by
  by_cases hcd : s.cacheDirty
  · simp only [sigintHandler, saveDevicesRun, hcd, if_pos] at h
    intro r hr
    rw [← Option.some_inj.mp h] at hr
    obtain ⟨o, ho, hget⟩ := List.mem_filterMap.mp hr
    exact socketid_clearSocketids_of_mem s.heap s.devices o r ho hget
  · simp [sigintHandler, saveDevicesRun, hcd] at h

/-- Witness for shutdownFlushHasNullSocketids: shutting down with the demo
device still connected writes its record with socketid null. -/
theorem shutdownFlushHasNullSocketids_witness :
    (sigintHandler demoConnected).2 =
      some [{ id := "i1", key := "k1", deviceid := "dev_a", expDate := none,
              socketid := none }] ∧
    ∀ r ∈ [({ id := "i1", key := "k1", deviceid := "dev_a", expDate := none,
              socketid := none } : Device)], r.socketid = none :=
  ⟨by decide,
   shutdownFlushHasNullSocketids demoConnected
     [{ id := "i1", key := "k1", deviceid := "dev_a", expDate := none, socketid := none }]
     (by decide)⟩

end KidsServer
